import Mathlib

/-!
Verification of the speech-to-text HTTP gateway (`src/server.js`).

The repository is a single Express server exposing `POST /transcribe` and
`GET /health`.  The development below is a shallow embedding of that file:

* the multipart upload middleware (`multer` with `dest: 'uploads/'` and a
  20 MiB `fileSize` limit) together with Express's default error handler,
* the `POST /transcribe` request handler (lines 65-113), with its
  `tempFiles` cleanup list and `finally` cleanup loop,
* the `convertAudioToWav` fluent-ffmpeg command builder (lines 40-51),
* the `GET /health` handler (lines 116-118).

External services (ffmpeg, `node-wav` decoding, the Whisper model) are
opaque to the server code; their outcomes are supplied by an oracle
(`Ext`) and the handler is proved correct for every oracle value.  The
filesystem is modelled as the list of existing paths; `fs.unlinkSync`
removes every occurrence of a path, and a fault oracle models it throwing.
Sample buffers are irrelevant to every claim, so the decoded-audio payload
is a type parameter `α`.
-/

namespace SpeechToText

/-- A flat JSON object with string values (all bodies the server produces
are of this shape), or the non-JSON error page produced by Express's
default error handler when a middleware error carries no status. -/
inductive Body where
  | json (fields : List (String × String))
  | errorPage (message : String)
deriving DecidableEq, Repr

/-- Whether a body is a JSON object (as opposed to the default error
page). -/
def Body.isJson : Body → Bool
  | .json _ => true
  | .errorPage _ => false

/-- An HTTP response: status code and body. -/
structure Resp where
  status : Nat
  body : Body
deriving DecidableEq, Repr

/-- `req.file` as populated by `upload.single('audio')`: the temporary
path multer wrote the bytes to, the client-supplied name, and the size. -/
structure UploadedFile where
  path : String
  originalname : String
  size : Nat
deriving DecidableEq, Repr

/-- Oracle for the outcomes of the external services invoked by one
request.  `convertResult` is the settlement of the `convertAudioToWav`
promise; `outputLeftOnError` says whether a failed ffmpeg run left a
partial output file behind; `decodeResult` is the outcome of
`wav.decode`; `modelReady` says whether the async model load (lines
30-37) has completed before line 96 runs; `inferResult` is the outcome of
the `transcriber(audioData)` call; `now` is the value `Date.now()`
returns at line 81. -/
structure Ext (α : Type) where
  convertResult : Except String Unit
  outputLeftOnError : Bool
  decodeResult : Except String α
  modelReady : Bool
  inferResult : Except String String
  now : Nat

/-- The pipeline stages of the handler body that can run after the
missing-file check: the ffmpeg conversion (line 85), the
`readFileBuffer` call (line 88), the `wav.decode` call (line 91) and the
`transcriber` call (line 96). -/
inductive Stage where
  | convert
  | read
  | decode
  | infer
deriving DecidableEq, Repr

/-- Labels for the observable points of the handler at which the disk or
the `tempFiles` list changes: handler entry (after multer has already
written the upload), after `tempFiles.push(inputFilePath)` (line 76),
after `tempFiles.push(wavFilePath)` (line 83), after a successful
conversion created the WAV file (line 85), and after the `finally`
cleanup (lines 105-112). -/
inductive Label where
  | entry
  | inputRecorded
  | wavRecorded
  | postConvert
  | final
deriving DecidableEq, Repr

/-- A point of the request's execution: the files on disk, the contents
of the handler's `tempFiles` array, and which point it is. -/
structure StepState where
  disk : List String
  temp : List String
  label : Label
deriving DecidableEq, Repr

/-- The `finally` cleanup loop (server.js lines 107-111):

    tempFiles.forEach(file =>
      try . if (fs.existsSync(file)) fs.unlinkSync(file) . catch . . );

`unlinkFails p = true` models `fs.unlinkSync(p)` throwing.  The second
component of the accumulator is the log: the loop body contains no
logging call and the `catch` block is empty, so nothing is ever appended
to it. -/
def cleanupFiles (unlinkFails : String → Bool) :
    List String → List String × List String → List String × List String
  | [], acc => acc
  | file :: rest, (disk, log) =>
    if file ∈ disk then
      if unlinkFails file then cleanupFiles unlinkFails rest (disk, log)
      else cleanupFiles unlinkFails rest (disk.filter (fun p => p != file), log)
    else cleanupFiles unlinkFails rest (disk, log)

/-- Run the cleanup loop on a disk with an empty log, returning the
resulting disk and the log of cleanup errors. -/
def runCleanup (unlinkFails : String → Bool) (tempFiles disk : List String) :
    List String × List String :=
  cleanupFiles unlinkFails tempFiles (disk, [])

/-- The fault-free filesystem: `fs.unlinkSync` never throws. -/
def noUnlinkFault : String → Bool := fun _ => false

/-- The converted-output path generated at lines 79-82:
`path.join('uploads', converted_ + Date.now() + .wav)`. -/
def wavName (now : Nat) : String :=
  "uploads/converted_" ++ toString now ++ ".wav"

/-- The result of running the `POST /transcribe` handler body: the
response sent, the state after the `finally` cleanup, the trace of states
passed through, and the pipeline stages that were started. -/
structure RunResult where
  resp : Resp
  final : StepState
  trace : List StepState
  stages : List Stage
  wavPath : Option String

/-- Shallow embedding of the `POST /transcribe` handler (server.js lines
65-113), for a fault-free filesystem.  `reqFile` is `req.file` (already
written to disk by multer when present, hence `f.path :: preDisk` at
entry); `preDisk` is the filesystem before the request.  Each arm mirrors
one path through the `try`/`catch`/`finally`: the missing-file early
return (lines 69-71), a rejection of the conversion promise (caught at
line 102), a `wav.decode` throw, the `transcriber(audioData)` call when
the model variable is still `undefined` (a TypeError caught at line 102),
an inference failure, and the success path (line 100). -/
def transcribeRun {α : Type} (ext : Ext α) (reqFile : Option UploadedFile)
    (preDisk : List String) : RunResult :=
  match reqFile with
  | none =>
    let s0 : StepState := ⟨preDisk, [], .entry⟩
    let fin : StepState := ⟨(runCleanup noUnlinkFault s0.temp s0.disk).1, s0.temp, .final⟩
    ⟨⟨400, .json [("error", "No audio file provided")]⟩, fin, [s0, fin], [], none⟩
  | some f =>
    let s0 : StepState := ⟨f.path :: preDisk, [], .entry⟩
    let s1 : StepState := ⟨s0.disk, s0.temp ++ [f.path], .inputRecorded⟩
    let wavFilePath := wavName ext.now
    let s2 : StepState := ⟨s1.disk, s1.temp ++ [wavFilePath], .wavRecorded⟩
    match ext.convertResult with
    | .error msg =>
      let d := if ext.outputLeftOnError then wavFilePath :: s2.disk else s2.disk
      let fin : StepState := ⟨(runCleanup noUnlinkFault s2.temp d).1, s2.temp, .final⟩
      ⟨⟨500, .json [("error", msg)]⟩, fin, [s0, s1, s2, fin], [.convert], some wavFilePath⟩
    | .ok _ =>
      let s3 : StepState := ⟨wavFilePath :: s2.disk, s2.temp, .postConvert⟩
      match ext.decodeResult with
      | .error msg =>
        let fin : StepState := ⟨(runCleanup noUnlinkFault s3.temp s3.disk).1, s3.temp, .final⟩
        ⟨⟨500, .json [("error", msg)]⟩, fin, [s0, s1, s2, s3, fin],
          [.convert, .read, .decode], some wavFilePath⟩
      | .ok _ =>
        if ext.modelReady then
          match ext.inferResult with
          | .error msg =>
            let fin : StepState := ⟨(runCleanup noUnlinkFault s3.temp s3.disk).1, s3.temp, .final⟩
            ⟨⟨500, .json [("error", msg)]⟩, fin, [s0, s1, s2, s3, fin],
              [.convert, .read, .decode, .infer], some wavFilePath⟩
          | .ok text =>
            let fin : StepState := ⟨(runCleanup noUnlinkFault s3.temp s3.disk).1, s3.temp, .final⟩
            ⟨⟨200, .json [("text", text)]⟩, fin, [s0, s1, s2, s3, fin],
              [.convert, .read, .decode, .infer], some wavFilePath⟩
        else
          let fin : StepState := ⟨(runCleanup noUnlinkFault s3.temp s3.disk).1, s3.temp, .final⟩
          ⟨⟨500, .json [("error", "transcriber is not a function")]⟩, fin, [s0, s1, s2, s3, fin],
            [.convert, .read, .decode, .infer], some wavFilePath⟩

/-- The temporary files created during a request: the upload artifact
written by multer and the converted-output path (whether or not the
conversion got far enough to create it). -/
def createdPaths {α : Type} (ext : Ext α) : Option UploadedFile → List String
  | none => []
  | some f => [f.path, wavName ext.now]

/-- The multipart part under field `audio` of an incoming request, before
multer processes it. -/
structure IncomingUpload where
  destPath : String
  originalname : String
  size : Nat
deriving DecidableEq, Repr

/-- The `fileSize` limit configured at server.js lines 21-24. -/
def maxFileSize : Nat := 20 * 1024 * 1024

/-- Outcome of the `upload.single('audio')` middleware: either `req.file`
(with the number of bytes persisted to disk), or a multer error code and
message.  When the streamed part exceeds `fileSize`, multer aborts with
code `LIMIT_FILE_SIZE` and message `File too large` after persisting at
most `maxFileSize` bytes, so the full body is never persisted. -/
inductive MulterOutcome where
  | ok (file : Option UploadedFile) (persistedBytes : Nat)
  | err (code : String) (message : String) (persistedBytes : Nat)
deriving DecidableEq, Repr

/-- The `upload.single('audio')` middleware configured at lines 21-24. -/
def multerSingleAudio : Option IncomingUpload → MulterOutcome
  | none => .ok none 0
  | some u =>
    if u.size > maxFileSize then
      .err "LIMIT_FILE_SIZE" "File too large" (min u.size maxFileSize)
    else
      .ok (some ⟨u.destPath, u.originalname, u.size⟩) u.size

/-- Express's default error handler picks `err.status` when the error
carries one and falls back to 500; the body it sends is its own error
page, not the handler's JSON. -/
def expressDefaultErrorStatus : Option Nat → Nat
  | some s => s
  | none => 500

/-- A `MulterError` (in particular `LIMIT_FILE_SIZE`) sets no `status`
property, and server.js registers no error-handling middleware, so multer
errors fall through to Express's default error handler. -/
def multerErrorStatus : Option Nat := none

/-- The full `POST /transcribe` route: the multer middleware followed by
the handler (line 65).  Returns the response together with the number of
upload bytes persisted to disk by the middleware. -/
def routeTranscribe {α : Type} (ext : Ext α) (upload : Option IncomingUpload)
    (preDisk : List String) : Resp × Nat :=
  match multerSingleAudio upload with
  | .err _ message persisted =>
    (⟨expressDefaultErrorStatus multerErrorStatus, .errorPage message⟩, persisted)
  | .ok file persisted => ((transcribeRun ext file preDisk).resp, persisted)

/-- A fluent-ffmpeg command as built by `convertAudioToWav`: the input
path and the options set on the chain before `.save`. -/
structure FfmpegCommand where
  input : String
  channels : Option Nat
  frequency : Option Nat
  codec : Option String
  outputFormat : Option String
  savedTo : Option String
deriving DecidableEq, Repr

/-- `ffmpeg(inputPath)` — a fresh command with no options set. -/
def ffmpegInit (input : String) : FfmpegCommand :=
  ⟨input, none, none, none, none, none⟩

/-- `.audioChannels(n)` on the fluent chain. -/
def FfmpegCommand.audioChannels (c : FfmpegCommand) (n : Nat) : FfmpegCommand :=
  { c with channels := some n }

/-- `.audioFrequency(hz)` on the fluent chain. -/
def FfmpegCommand.audioFrequency (c : FfmpegCommand) (hz : Nat) : FfmpegCommand :=
  { c with frequency := some hz }

/-- `.audioCodec(name)` on the fluent chain. -/
def FfmpegCommand.audioCodec (c : FfmpegCommand) (n : String) : FfmpegCommand :=
  { c with codec := some n }

/-- `.format(name)` on the fluent chain. -/
def FfmpegCommand.format (c : FfmpegCommand) (n : String) : FfmpegCommand :=
  { c with outputFormat := some n }

/-- `.save(outputPath)` — runs the command writing to `outputPath`. -/
def FfmpegCommand.save (c : FfmpegCommand) (out : String) : FfmpegCommand :=
  { c with savedTo := some out }

/-- The ffmpeg invocation built by `convertAudioToWav` (server.js lines
40-51): `ffmpeg(inputPath).audioChannels(1).audioFrequency(16000)
.audioCodec('pcm_s16le').format('wav').save(outputPath)`. -/
def convertAudioToWavCommand (inputPath outputPath : String) : FfmpegCommand :=
  (((((ffmpegInit inputPath).audioChannels 1).audioFrequency
    16000).audioCodec "pcm_s16le").format "wav").save outputPath

/-- The `GET /health` handler (server.js lines 116-118).  It reads no
state at all — in particular not the model variable — so it is modelled
as a function of the model-loaded flag that ignores it.
`res.json` defaults the status to 200. -/
def healthHandler (_modelLoaded : Bool) : Resp :=
  ⟨200, .json [("status", "ok"), ("model", "whisper-tiny.en")]⟩

/-- The numeric value of a decimal digit character (the left inverse of
`Nat.digitChar` on digits), used to prove that the decimal rendering of
`Date.now()` inside `wavName` is injective. -/
def digitVal (c : Char) : Nat := c.toNat - 48

/-- The number denoted by a most-significant-first list of decimal digit
characters. -/
def valOfDigits (l : List Char) : Nat :=
  l.foldl (fun a c => 10 * a + digitVal c) 0

/-- A sample oracle in which every external stage succeeds. -/
def extOkEx : Ext Unit := ⟨Except.ok (), false, Except.ok (), true, Except.ok "hello", 42⟩

/-- A sample uploaded file as multer would record it. -/
def fileEx : UploadedFile := ⟨"uploads/u1", "a.mp3", 5⟩

/-- A second sample uploaded file, distinct from `fileEx`. -/
def fileEx2 : UploadedFile := ⟨"uploads/u2", "b.mp3", 6⟩

/-- A sample oracle in which every stage would succeed but the model has
not finished loading. -/
def extNotReadyEx : Ext Unit := ⟨Except.ok (), false, Except.ok (), false, Except.ok "x", 7⟩

/-- Oracle with a failing conversion stage. -/
def extConvFailEx : Ext Unit :=
  ⟨Except.error "ffmpeg exited with code 1", true, Except.ok (), true, Except.ok "t", 3⟩

/-- Oracle with a failing decode stage. -/
def extDecFailEx : Ext Unit :=
  ⟨Except.ok (), false, Except.error "Invalid WAV file", true, Except.ok "t", 3⟩

/-- Oracle with a failing inference stage. -/
def extInfFailEx : Ext Unit :=
  ⟨Except.ok (), false, Except.ok (), true, Except.error "inference failed", 3⟩

/-- A sample oversized incoming upload: one byte above the 20 MiB
limit. -/
def oversizedUploadEx : IncomingUpload := ⟨"uploads/u9", "big.mp3", 20971521⟩

/-- Whatever the fault oracle, the cleanup loop only ever removes files:
the resulting disk is a subset of the starting disk. -/
theorem cleanupFiles_fst_subset (u : String → Bool) :
    ∀ (files disk log : List String), (cleanupFiles u files (disk, log)).1 ⊆ disk := by
  intro files
  induction files with
  | nil => intro disk log; exact fun _ h => h
  | cons f rest ih =>
    intro disk log
    by_cases hf : f ∈ disk
    · by_cases hu : u f = true
      · simpa [cleanupFiles, hf, hu] using ih disk log
      · have hu' : u f = false := by
          cases h : u f
          · rfl
          · exact absurd h hu
        have hsub := ih (disk.filter (fun p => p != f)) log
        simp only [cleanupFiles, hf, hu', if_true, if_false, Bool.false_eq_true, ite_false,
          ite_true]
        exact fun x hx => List.mem_of_mem_filter (hsub hx)
    · simpa [cleanupFiles, hf] using ih disk log

/-- With a fault-free filesystem, every file in the cleanup list is
absent from the disk after the cleanup loop runs. -/
theorem cleanupFiles_removes :
    ∀ (files disk log : List String) (p : String), p ∈ files →
      p ∉ (cleanupFiles noUnlinkFault files (disk, log)).1 := by
  intro files
  induction files with
  | nil => intro disk log p hp; exact absurd hp (List.not_mem_nil p)
  | cons f rest ih =>
    intro disk log p hp
    by_cases hf : f ∈ disk
    · simp only [cleanupFiles, hf, noUnlinkFault, Bool.false_eq_true, if_false, if_true]
      rcases List.mem_cons.mp hp with hpf | hprest
      · subst hpf
        intro hcontra
        have := cleanupFiles_fst_subset noUnlinkFault rest (disk.filter (fun q => q != p)) log
          hcontra
        simp [List.mem_filter] at this
      · exact ih _ log p hprest
    · simp only [cleanupFiles, hf, if_false, ite_false]
      rcases List.mem_cons.mp hp with hpf | hprest
      · subst hpf
        intro hcontra
        exact hf (cleanupFiles_fst_subset noUnlinkFault rest disk log hcontra)
      · exact ih disk log p hprest

/-- The cleanup loop never appends anything to the log, whatever the
fault oracle does: the loop body contains no logging call and the catch
block is empty. -/
theorem cleanupFiles_log (u : String → Bool) :
    ∀ (files disk log : List String), (cleanupFiles u files (disk, log)).2 = log := by
  intro files
  induction files with
  | nil => intro disk log; rfl
  | cons f rest ih =>
    intro disk log
    by_cases hf : f ∈ disk
    · by_cases hu : u f = true
      · simpa [cleanupFiles, hf, hu] using ih disk log
      · have hu' : u f = false := by
          cases h : u f
          · rfl
          · exact absurd h hu
        simpa [cleanupFiles, hf, hu'] using ih (disk.filter (fun p => p != f)) log
    · simpa [cleanupFiles, hf] using ih disk log

/-- Running the fault-free cleanup on a disk of the form
`extra ++ preDisk`, where every extra file is in the cleanup list, leaves
a subset of `preDisk`. -/
theorem runCleanup_subset_pre (temp preDisk extra : List String)
    (hextra : ∀ x ∈ extra, x ∈ temp) :
    (runCleanup noUnlinkFault temp (extra ++ preDisk)).1 ⊆ preDisk := by
  intro x hx
  have hxd : x ∈ extra ++ preDisk :=
    cleanupFiles_fst_subset noUnlinkFault temp (extra ++ preDisk) [] hx
  rcases List.mem_append.mp hxd with h | h
  · exact absurd hx (cleanupFiles_removes temp (extra ++ preDisk) [] x (hextra x h))
  · exact h

/-- The final state of any run on an uploaded file: the cleanup list is
exactly the two created paths, and the final disk is the fault-free
cleanup of a disk made of some of the created paths on top of the
pre-request files. -/
theorem transcribeRun_final_spec {α : Type} (ext : Ext α) (f : UploadedFile)
    (preDisk : List String) :
    ∃ extra : List String, (∀ x ∈ extra, x ∈ createdPaths ext (some f)) ∧
      (transcribeRun ext (some f) preDisk).final =
        ⟨(runCleanup noUnlinkFault [f.path, wavName ext.now] (extra ++ preDisk)).1,
          [f.path, wavName ext.now], .final⟩ := by
  rcases hc : ext.convertResult with msg | u
  · cases hp : ext.outputLeftOnError
    · exact ⟨[f.path], by simp [createdPaths], by simp [transcribeRun, hc, hp]⟩
    · exact ⟨[wavName ext.now, f.path], by simp [createdPaths],
        by simp [transcribeRun, hc, hp]⟩
  · rcases hd : ext.decodeResult with msg | x
    · exact ⟨[wavName ext.now, f.path], by simp [createdPaths],
        by simp [transcribeRun, hc, hd]⟩
    · cases hm : ext.modelReady
      · exact ⟨[wavName ext.now, f.path], by simp [createdPaths],
          by simp [transcribeRun, hc, hd, hm]⟩
      · rcases hi : ext.inferResult with msg | text
        · exact ⟨[wavName ext.now, f.path], by simp [createdPaths],
            by simp [transcribeRun, hc, hd, hm, hi]⟩
        · exact ⟨[wavName ext.now, f.path], by simp [createdPaths],
            by simp [transcribeRun, hc, hd, hm, hi]⟩

/-- Claim C1: for every `POST /transcribe` request, on success and on
every failure path, the `finally` cleanup deletes every temporary file
created for the request before the handler exits: the final disk is a
subset of the pre-request disk, and no created path survives. -/
theorem c1_no_orphaned_files {α : Type} (ext : Ext α) (reqFile : Option UploadedFile)
    (preDisk : List String) :
    (transcribeRun ext reqFile preDisk).final.disk ⊆ preDisk ∧
      ∀ p ∈ createdPaths ext reqFile, p ∉ (transcribeRun ext reqFile preDisk).final.disk := by
  match reqFile with
  | none =>
    constructor
    · simp [transcribeRun, runCleanup, cleanupFiles]
    · intro p hp
      exact absurd hp (List.not_mem_nil p)
  | some f =>
    obtain ⟨extra, hextra, hfin⟩ := transcribeRun_final_spec ext f preDisk
    have htemp : ∀ x ∈ extra, x ∈ [f.path, wavName ext.now] := by
      intro x hx
      simpa [createdPaths] using hextra x hx
    constructor
    · rw [hfin]
      exact runCleanup_subset_pre _ preDisk extra htemp
    · intro p hp
      rw [hfin]
      have hp' : p ∈ [f.path, wavName ext.now] := by
        simpa [createdPaths] using hp
      exact cleanupFiles_removes _ _ [] p hp'

/-- Witness for C1 at a concrete request: the upload artifact does not
survive the handler, and the final disk is inside the pre-request disk. -/
theorem c1_no_orphaned_files_witness :
    "uploads/u1" ∉ (transcribeRun extOkEx (some fileEx) ["keep.txt"]).final.disk ∧
      (transcribeRun extOkEx (some fileEx) ["keep.txt"]).final.disk ⊆ ["keep.txt"] :=
  ⟨(c1_no_orphaned_files extOkEx (some fileEx) ["keep.txt"]).2 "uploads/u1" (by decide),
    (c1_no_orphaned_files extOkEx (some fileEx) ["keep.txt"]).1⟩

/-- Claim C5: a `POST /transcribe` request with no file under the `audio`
field is answered with HTTP 400 and a JSON `error` saying no audio file
was provided, and no pipeline stage (conversion, read, decode,
inference) runs. -/
theorem c5_missing_input_400 {α : Type} (ext : Ext α) (preDisk : List String) :
    routeTranscribe ext none preDisk =
        (⟨400, .json [("error", "No audio file provided")]⟩, 0) ∧
      (transcribeRun ext none preDisk).stages = [] :=
  ⟨rfl, rfl⟩

/-- Claim C3: a request that reaches the model call before the
asynchronous model load has completed does not wait: calling the still
`undefined` model variable throws a TypeError, which the handler maps to
HTTP 500 with a JSON `error` body. -/
theorem c3_model_not_ready_500 {α : Type} (ext : Ext α) (f : UploadedFile)
    (preDisk : List String) (x : α) (hc : ext.convertResult = Except.ok ())
    (hd : ext.decodeResult = Except.ok x) (hm : ext.modelReady = false) :
    (transcribeRun ext (some f) preDisk).resp =
      ⟨500, .json [("error", "transcriber is not a function")]⟩ := by
  simp [transcribeRun, hc, hd, hm]

/-- Witness for C3 at a concrete request with the model still loading. -/
theorem c3_model_not_ready_500_witness :
    (transcribeRun extNotReadyEx (some fileEx) []).resp =
      ⟨500, .json [("error", "transcriber is not a function")]⟩ :=
  c3_model_not_ready_500 extNotReadyEx fileEx [] () rfl rfl rfl

/-- Claim C4: when the conversion, decode, or inference stage fails, the
response is HTTP 500 with a JSON body whose `error` field is the
failure's message. -/
theorem c4_stage_failure_500 {α : Type} (ext : Ext α) (f : UploadedFile)
    (preDisk : List String) (m : String) :
    (ext.convertResult = Except.error m →
        (transcribeRun ext (some f) preDisk).resp = ⟨500, .json [("error", m)]⟩) ∧
      (ext.convertResult = Except.ok () → ext.decodeResult = Except.error m →
        (transcribeRun ext (some f) preDisk).resp = ⟨500, .json [("error", m)]⟩) ∧
      (∀ x : α, ext.convertResult = Except.ok () → ext.decodeResult = Except.ok x →
        ext.modelReady = true → ext.inferResult = Except.error m →
        (transcribeRun ext (some f) preDisk).resp = ⟨500, .json [("error", m)]⟩) := by
  refine ⟨fun hc => ?_, fun hc hd => ?_, fun x hc hd hm hi => ?_⟩
  · simp [transcribeRun, hc]
  · simp [transcribeRun, hc, hd]
  · simp [transcribeRun, hc, hd, hm, hi]

/-- Witness for C4: concrete conversion, decode and inference failures
each produce HTTP 500 with the failure's message in the `error` field. -/
theorem c4_stage_failure_500_witness :
    (transcribeRun extConvFailEx (some fileEx) []).resp =
        ⟨500, .json [("error", "ffmpeg exited with code 1")]⟩ ∧
      (transcribeRun extDecFailEx (some fileEx) []).resp =
        ⟨500, .json [("error", "Invalid WAV file")]⟩ ∧
      (transcribeRun extInfFailEx (some fileEx) []).resp =
        ⟨500, .json [("error", "inference failed")]⟩ :=
  ⟨(c4_stage_failure_500 extConvFailEx fileEx [] "ffmpeg exited with code 1").1 rfl,
    (c4_stage_failure_500 extDecFailEx fileEx [] "Invalid WAV file").2.1 rfl rfl,
    (c4_stage_failure_500 extInfFailEx fileEx [] "inference failed").2.2 () rfl rfl rfl rfl⟩

/-- Claim C6: for every input audio file the Audio Normalizer invokes the
external transcoder with exactly channel count 1, sample rate 16000 Hz,
codec `pcm_s16le` and container format `wav`, saving to the fresh
temporary output path. -/
theorem c6_converter_options (inputPath outputPath : String) :
    convertAudioToWavCommand inputPath outputPath =
      ⟨inputPath, some 1, some 16000, some "pcm_s16le", some "wav", some outputPath⟩ := rfl

/-- Claim C9: every `GET /health` request, whether or not the model has
finished loading, receives HTTP 200 with body
`status: ok, model: whisper-tiny.en`, the model identifier being the same
on every call. -/
theorem c9_health_constant (b b' : Bool) :
    healthHandler b = ⟨200, .json [("status", "ok"), ("model", "whisper-tiny.en")]⟩ ∧
      healthHandler b = healthHandler b' := ⟨rfl, rfl⟩

/-- `digitVal` inverts `Nat.digitChar` on decimal digits. -/
theorem digitVal_digitChar : ∀ d : Nat, d < 10 → digitVal (Nat.digitChar d) = d := by decide

/-- Appending one digit multiplies the denoted value by ten and adds the
digit. -/
theorem valOfDigits_append_singleton (l : List Char) (c : Char) :
    valOfDigits (l ++ [c]) = 10 * valOfDigits l + digitVal c := by
  simp [valOfDigits, List.foldl_append]

/-- Core's `Nat.toDigitsCore` with sufficient fuel computes
`Nat.toDigits` onto the front of the accumulator. -/
theorem toDigitsCore_fuel_acc (n : Nat) :
    ∀ (fuel : Nat) (ds : List Char), n < fuel →
      Nat.toDigitsCore 10 fuel n ds = Nat.toDigits 10 n ++ ds := by
  induction n using Nat.strong_induction_on with
  | _ n ih =>
    intro fuel ds hfuel
    obtain ⟨f, rfl⟩ : ∃ f, fuel = f + 1 := ⟨fuel - 1, by omega⟩
    by_cases h0 : n / 10 = 0
    · simp [Nat.toDigitsCore, Nat.toDigits, h0]
    · have hnpos : 0 < n := by
        rcases Nat.eq_zero_or_pos n with hz | hp
        · exact absurd (by simp [hz]) h0
        · exact hp
      have hdiv_lt : n / 10 < n := Nat.div_lt_self hnpos (by norm_num)
      have hn_le : n ≤ f := Nat.lt_succ_iff.mp hfuel
      have h1 := ih (n / 10) hdiv_lt f (Nat.digitChar (n % 10) :: ds)
        (lt_of_lt_of_le hdiv_lt hn_le)
      have h2 := ih (n / 10) hdiv_lt n [Nat.digitChar (n % 10)] hdiv_lt
      simp only [Nat.toDigitsCore, Nat.toDigits, h0, if_false, ite_false]
      rw [h1, h2]
      simp [List.append_assoc]

/-- `valOfDigits` is a left inverse of decimal rendering: the digits of
`n` denote `n`. -/
theorem valOfDigits_toDigits (n : Nat) : valOfDigits (Nat.toDigits 10 n) = n := by
  induction n using Nat.strong_induction_on with
  | _ n ih =>
    by_cases h0 : n / 10 = 0
    · have hn10 : n < 10 := (Nat.div_eq_zero_iff (by norm_num)).mp h0
      have hmod : n % 10 = n := Nat.mod_eq_of_lt hn10
      simp [Nat.toDigits, Nat.toDigitsCore, h0, valOfDigits,
        digitVal_digitChar n hn10, hmod]
    · have hnpos : 0 < n := by
        rcases Nat.eq_zero_or_pos n with hz | hp
        · exact absurd (by simp [hz]) h0
        · exact hp
      have hdiv_lt : n / 10 < n := Nat.div_lt_self hnpos (by norm_num)
      have hchar : Nat.toDigits 10 n =
          Nat.toDigits 10 (n / 10) ++ [Nat.digitChar (n % 10)] := by
        show Nat.toDigitsCore 10 (n + 1) n [] = _
        simp only [Nat.toDigitsCore, h0, if_false, ite_false]
        exact toDigitsCore_fuel_acc (n / 10) n [Nat.digitChar (n % 10)] hdiv_lt
      rw [hchar, valOfDigits_append_singleton, ih (n / 10) hdiv_lt,
        digitVal_digitChar (n % 10) (Nat.mod_lt n (by norm_num))]
      exact Nat.div_add_mod n 10

/-- The decimal rendering of a natural number is injective. -/
theorem natRepr_injective (m n : Nat) (h : Nat.repr m = Nat.repr n) : m = n := by
  have hdata : Nat.toDigits 10 m = Nat.toDigits 10 n := by
    have hd := congrArg String.data h
    simpa [Nat.repr, List.asString] using hd
  calc m = valOfDigits (Nat.toDigits 10 m) := (valOfDigits_toDigits m).symm
    _ = valOfDigits (Nat.toDigits 10 n) := by rw [hdata]
    _ = n := valOfDigits_toDigits n

/-- Two generated converted-output paths are equal only when the
timestamps are equal. -/
theorem wavName_injective (t1 t2 : Nat) (h : wavName t1 = wavName t2) : t1 = t2 := by
  have hdata := congrArg String.data h
  simp only [wavName, String.data_append] at hdata
  have h4 := List.append_cancel_right hdata
  have h2 := List.append_cancel_left h4
  have h3 : (toString t1 : String) = toString t2 := by
    have : (⟨(toString t1 : String).data⟩ : String) = ⟨(toString t2 : String).data⟩ := by
      rw [h2]
    simpa using this
  exact natRepr_injective t1 t2 h3

/-- Every run on an uploaded file generates the converted-output path
from the observed `Date.now()` value alone. -/
theorem transcribeRun_wavPath {α : Type} (ext : Ext α) (f : UploadedFile)
    (preDisk : List String) :
    (transcribeRun ext (some f) preDisk).wavPath = some (wavName ext.now) := by
  rcases hc : ext.convertResult with m | u
  · simp [transcribeRun, hc]
  · rcases hd : ext.decodeResult with m | x
    · simp [transcribeRun, hc, hd]
    · cases hm : ext.modelReady
      · simp [transcribeRun, hc, hd, hm]
      · rcases hi : ext.inferResult with m | t
        · simp [transcribeRun, hc, hd, hm, hi]
        · simp [transcribeRun, hc, hd, hm, hi]

/-- Claim C7 is false as stated: the converted-output path depends only
on `Date.now()`, so two distinct concurrent requests that observe the
same millisecond timestamp receive identical (colliding) paths.  Here
two requests for different uploaded files, both observing
`Date.now() = 42`, generate the same `uploads/converted_42.wav`. -/
theorem c7_counterexample :
    ¬ (∀ (e1 e2 : Ext Unit) (f1 f2 : UploadedFile) (d1 d2 : List String),
        f1 ≠ f2 →
        (transcribeRun e1 (some f1) d1).wavPath ≠ (transcribeRun e2 (some f2) d2).wavPath) := by
  intro h
  exact h extOkEx extOkEx fileEx fileEx2 [] [] (by decide) rfl

/-- Claim C7 as amended: the converted-output paths of two requests
coincide exactly when the requests observe the same `Date.now()` value;
in particular paths are unique across requests observing distinct
timestamps, but requests hitting the same millisecond collide. -/
theorem c7_amended_paths_collide_iff_same_timestamp {α β : Type} (e1 : Ext α) (e2 : Ext β)
    (f1 f2 : UploadedFile) (d1 d2 : List String) :
    (transcribeRun e1 (some f1) d1).wavPath = (transcribeRun e2 (some f2) d2).wavPath ↔
      e1.now = e2.now := by
  rw [transcribeRun_wavPath, transcribeRun_wavPath]
  constructor
  · intro h
    exact wavName_injective e1.now e2.now (Option.some.inj h)
  · intro h
    rw [h]

/-- Claim C2 is false as stated: an upload one byte over the 20 MiB
limit makes multer abort with a `LIMIT_FILE_SIZE` error; that error
carries no HTTP status and no error-handling middleware is registered,
so Express's default error handler answers 500 with its own non-JSON
error page — not 400 or 413 with a JSON `error` field. -/
theorem c2_counterexample :
    routeTranscribe extOkEx (some oversizedUploadEx) [] =
        (⟨500, .errorPage "File too large"⟩, 20971520) ∧
      (routeTranscribe extOkEx (some oversizedUploadEx) []).1.status ≠ 400 ∧
      (routeTranscribe extOkEx (some oversizedUploadEx) []).1.status ≠ 413 ∧
      (routeTranscribe extOkEx (some oversizedUploadEx) []).1.body.isJson = false := by
  refine ⟨?_, by decide, by decide, by decide⟩
  decide

/-- Claim C2 as amended: an upload exceeding the 20 MiB limit is
rejected with HTTP 500 carrying the framework's default non-JSON error
page with message `File too large`, and the failure occurs before the
full body is persisted to disk (at most `maxFileSize` bytes are
written, strictly fewer than the upload's size). -/
theorem c2_amended_oversized_500 {α : Type} (ext : Ext α) (u : IncomingUpload)
    (preDisk : List String) (h : u.size > maxFileSize) :
    routeTranscribe ext (some u) preDisk =
        (⟨500, .errorPage "File too large"⟩, min u.size maxFileSize) ∧
      min u.size maxFileSize < u.size := by
  constructor
  · simp [routeTranscribe, multerSingleAudio, h, expressDefaultErrorStatus, multerErrorStatus]
  · exact lt_of_le_of_lt (min_le_right u.size maxFileSize) h

/-- Witness for the amended C2 at the concrete oversized upload. -/
theorem c2_amended_oversized_500_witness :
    routeTranscribe extOkEx (some oversizedUploadEx) [] =
        (⟨500, .errorPage "File too large"⟩, min 20971521 maxFileSize) ∧
      min 20971521 maxFileSize < 20971521 :=
  c2_amended_oversized_500 extOkEx oversizedUploadEx [] (by decide)

/-- Claim C8 is false as stated: in the cleanup loop the `catch` block
is empty, so a filesystem error while deleting a temporary file is
silently swallowed.  Here `fs.unlinkSync` fails on an existing recorded
file: the file survives the cleanup and the log stays empty — nothing
was logged. -/
theorem c8_counterexample :
    (runCleanup (fun _ => true) ["uploads/a"] ["uploads/a"]).1 = ["uploads/a"] ∧
      (runCleanup (fun _ => true) ["uploads/a"] ["uploads/a"]).2 = [] := by
  exact ⟨rfl, rfl⟩

/-- Claim C8 as amended: filesystem errors during cleanup are caught and
silently ignored by the empty `catch` block — nothing is ever logged by
the cleanup loop, whatever deletions fail; cleanup remains best-effort
and never propagates an error to the response. -/
theorem c8_amended_cleanup_silent (u : String → Bool) (files disk : List String) :
    (runCleanup u files disk).2 = [] :=
  cleanupFiles_log u files disk []

/-- Claim C10 is false as stated for the upload artifact: multer writes
the upload to disk before the handler runs, and the handler appends its
path to `tempFiles` only at line 76.  At handler entry (the head of the
trace) the upload artifact `uploads/u1` — a file created for the request
— is on disk while the cleanup list is still empty, so it is not
recorded before (nor at the completion of) the operation that created
it. -/
theorem c10_counterexample :
    (transcribeRun extOkEx (some fileEx) []).trace.head? =
        some ⟨["uploads/u1"], [], .entry⟩ ∧
      "uploads/u1" ∈ createdPaths extOkEx (some fileEx) := by
  refine ⟨rfl, by decide⟩

/-- Claim C10 as amended: the converted-WAV path is recorded before the
conversion that creates it begins, while the upload artifact's path is
recorded only after multer has already written it; nevertheless every
fallible operation of the handler (conversion, file read, decode,
inference) executes in a state labelled `wavRecorded` or `postConvert`,
and in every such state the cleanup list is exactly the list of paths
created for the request — so at every possible failure point every
temporary file that could exist on disk is already recorded. -/
theorem c10_amended_failure_points_recorded {α : Type} (ext : Ext α) (f : UploadedFile)
    (preDisk : List String) (s : StepState)
    (hs : s ∈ (transcribeRun ext (some f) preDisk).trace)
    (hl : s.label = .wavRecorded ∨ s.label = .postConvert) :
    s.temp = createdPaths ext (some f) := by
  rcases hc : ext.convertResult with m | u
  · simp [transcribeRun, hc] at hs
    rcases hs with rfl | rfl | rfl | rfl <;> simp_all [createdPaths]
  · rcases hd : ext.decodeResult with m | x
    · simp [transcribeRun, hc, hd] at hs
      rcases hs with rfl | rfl | rfl | rfl | rfl <;> simp_all [createdPaths]
    · cases hm : ext.modelReady
      · simp [transcribeRun, hc, hd, hm] at hs
        rcases hs with rfl | rfl | rfl | rfl | rfl <;> simp_all [createdPaths]
      · rcases hi : ext.inferResult with m | t
        · simp [transcribeRun, hc, hd, hm, hi] at hs
          rcases hs with rfl | rfl | rfl | rfl | rfl <;> simp_all [createdPaths]
        · simp [transcribeRun, hc, hd, hm, hi] at hs
          rcases hs with rfl | rfl | rfl | rfl | rfl <;> simp_all [createdPaths]

/-- Witness for the amended C10: the `wavRecorded` state of a concrete
run has exactly the created paths recorded. -/
theorem c10_amended_failure_points_recorded_witness :
    (⟨["uploads/u1"], ["uploads/u1", "uploads/converted_42.wav"], .wavRecorded⟩
        : StepState).temp = createdPaths extOkEx (some fileEx) :=
  c10_amended_failure_points_recorded extOkEx fileEx []
    ⟨["uploads/u1"], ["uploads/u1", "uploads/converted_42.wav"], .wavRecorded⟩
    (by decide) (Or.inl rfl)

end SpeechToText
